import Mathlib

/-!
# Verification of the PolBot relay service (`src/app.py`)

Shallow embedding of the single-file relay pipeline of `app.py`:
the Telegram message dispatch in `handle_file`, the Google-Drive
`upload_to_drive` executor, the `/webhook` HTTP boundary, and the
`/setup` + `setup_webhook` registration routine.

External effects (Telegram fetch, Drive service construction, the
provider's `files().create().execute()` call) are modelled as inputs of
type `Except String _`: `Except.error e` stands for that call raising an
exception whose Python `str` form is `e`.  Chat-side sends and edits are
recorded as an event trace.
-/

namespace PolBot

/-- A Telegram attachment that carries a declared file name
(`message.document`, `message.video`, `message.audio`).  `file_name` is
`none` when the platform omits the name (Python `None`). -/
structure FileAttachment where
  file_id : String
  file_unique_id : String
  file_name : Option String
deriving DecidableEq

/-- One entry of `message.photo` (a Telegram `PhotoSize`): photos carry no
declared file name. -/
structure PhotoSize where
  file_id : String
  file_unique_id : String
deriving DecidableEq

/-- The fields of a Telegram message inspected by `handle_file`.
`photo` is a list (empty when the message has no photo, matching the
falsiness of an empty tuple in `elif message.photo:`). -/
structure Message where
  document : Option FileAttachment
  video : Option FileAttachment
  photo : List PhotoSize
  audio : Option FileAttachment
deriving DecidableEq

/-- Attachment kind chosen by the `if/elif` chain of `handle_file`. -/
inductive FileKind
  | document
  | video
  | photo
  | audio
deriving DecidableEq

/-- The `(file_to_process, file_name)` pair extracted by the dispatch part
of `handle_file` (lines 82-94 of `app.py`).  `name` is `Option String`
because the document branch copies `message.document.file_name` verbatim,
which may be Python `None`. -/
structure FileRef where
  kind : FileKind
  file_id : String
  file_unique_id : String
  name : Option String
deriving DecidableEq

/-- Python's `declared or fallback` on an optional string: both `None` and
the empty string are falsy and select the fallback. -/
def pyOr (declared : Option String) (fallback : String) : String :=
  match declared with
  | none => fallback
  | some s => if s = "" then fallback else s

/-- Python's f-string rendering of an optional string: `None` prints as
`"None"`. -/
def pyStr : Option String → String
  | none => "None"
  | some s => s

/-- The dispatch chain of `handle_file` (`app.py` lines 82-99):
`if message.document: ... elif message.video: ... elif message.photo: ...
elif message.audio: ...`, returning `none` when no branch fires (the
`if not file_to_process` case).  The photo branch takes
`message.photo[-1]`, i.e. the last size variant. -/
def dispatch (m : Message) : Option FileRef :=
  match m.document with
  | some d => some ⟨FileKind.document, d.file_id, d.file_unique_id, d.file_name⟩
  | none =>
    match m.video with
    | some v => some ⟨FileKind.video, v.file_id, v.file_unique_id,
        some (pyOr v.file_name ("video_" ++ v.file_unique_id ++ ".mp4"))⟩
    | none =>
      match m.photo.getLast? with
      | some p => some ⟨FileKind.photo, p.file_id, p.file_unique_id,
          some ("photo_" ++ p.file_unique_id ++ ".jpg")⟩
      | none =>
        match m.audio with
        | some a => some ⟨FileKind.audio, a.file_id, a.file_unique_id,
            some (pyOr a.file_name ("audio_" ++ a.file_unique_id ++ ".mp3"))⟩
        | none => none

/-- The metadata returned by the Drive `files().create(...).execute()`
call with `fields='id, webViewLink'`; either field may be absent from the
response dictionary. -/
structure DriveFile where
  id : Option String
  webViewLink : Option String
deriving DecidableEq

/-- Logging level used by `app.py`'s logger calls. -/
inductive LogLevel
  | info
  | warning
  | error
deriving DecidableEq

/-- One logger call. -/
structure LogEntry where
  level : LogLevel
  text : String
deriving DecidableEq

/-- `upload_to_drive` (`app.py` lines 43-64).  Its whole body runs inside
`try/except Exception`: on a provider success it logs at info level and
returns `file.get('webViewLink')`; on any raised exception it logs the
error and returns `None` (the failure sentinel).  It never re-raises. -/
def upload_to_drive (providerResult : Except String DriveFile) :
    Option String × LogEntry :=
  match providerResult with
  | Except.ok f =>
      (f.webViewLink, ⟨LogLevel.info, "File uploaded successfully. ID: " ++ pyStr f.id⟩)
  | Except.error e =>
      (none, ⟨LogLevel.error, "Error uploading file: " ++ e⟩)

/-- Outcomes of the external calls made by one `handle_file` invocation:
the Telegram fetch (`get_file` + `download_to_memory`), the
`get_drive_service` call, and the Drive provider call inside
`upload_to_drive`.  An `Except.error e` models that call raising an
exception with string form `e`. -/
structure PipelineEnv where
  fetchResult : Except String ByteArray
  driveServiceResult : Except String Unit
  providerResult : Except String DriveFile

/-- Observable chat-side actions of `handle_file`, in order. -/
inductive ChatEvent
  | reply (text : String)
  | createStatus (text : String)
  | editStatus (text : String) (htmlMode : Bool) (disablePreview : Bool)
  | fetchCall (fileId : String)
  | driveServiceCall
  | uploadCall (name : Option String)
deriving DecidableEq

/-- `app.py` line 98: reply sent for unsupported formats. -/
def unsupportedText : String :=
  "فرمت فایل پشتیبانی نمی‌شود."

/-- `app.py` line 103: initial status message ("fetching from Telegram"). -/
def fetchingText : String :=
  "در حال دریافت فایل از تلگرام..."

/-- `app.py` line 116: status edit before the upload ("uploading to Drive"). -/
def uploadingText : String :=
  "در حال آپلود در گوگل درایو... ☁️"

/-- `app.py` line 137: generic "upload failed" edit for a `None` result
from `upload_to_drive`. -/
def uploadFailedText : String :=
  "❌ مشکلی در آپلود فایل پیش آمد."

/-- `app.py` line 142: the `except` clause's edit `f"خطا: {e}"` with the
stringified exception. -/
def errorText (e : String) : String :=
  "خطا: " ++ e

/-- `app.py` line 131: the success edit
`f"✅ فایل با موفقیت آپلود شد!\n\n<a href='{file_link}'>{file_name}</a>"`. -/
def successText (link : String) (name : String) : String :=
  "✅ فایل با موفقیت آپلود شد!\n\n<a href='"
    ++ link ++ "'>" ++ name ++ "</a>"

/-- `handle_file` (`app.py` lines 73-142) as an event trace.  The dispatch
chain runs first; an unsupported message gets a single reply and exits
before any status message.  The `try` block covers the fetch, the
"uploading" edit, `get_drive_service` and `upload_to_drive` (both via
`run_in_executor`, which re-raises their exceptions at the `await`) and
the final edits; `except Exception as e` converts any raised error into
the `errorText e` edit.  `upload_to_drive` catches its own exceptions, so
its result is inspected with `if file_link:` (empty strings falsy). -/
def handle_file (m : Message) (env : PipelineEnv) : List ChatEvent :=
  match dispatch m with
  | none => [ChatEvent.reply unsupportedText]
  | some ref =>
    ChatEvent.createStatus fetchingText ::
    ChatEvent.fetchCall ref.file_id ::
    match env.fetchResult with
    | Except.error e => [ChatEvent.editStatus (errorText e) false false]
    | Except.ok _ =>
      ChatEvent.editStatus uploadingText false false ::
      ChatEvent.driveServiceCall ::
      match env.driveServiceResult with
      | Except.error e => [ChatEvent.editStatus (errorText e) false false]
      | Except.ok _ =>
        ChatEvent.uploadCall ref.name ::
        match (upload_to_drive env.providerResult).1 with
        | some link =>
          if link = "" then [ChatEvent.editStatus uploadFailedText false false]
          else [ChatEvent.editStatus (successText link (pyStr ref.name)) true true]
        | none => [ChatEvent.editStatus uploadFailedText false false]

/-- `Application.process_update`: parses at the webhook layer to either no
matching message (`none`, nothing dispatched) or a file-bearing message
handed to `handle_file`.  Handler exceptions are not re-raised to the
caller (`handle_file` catches its own pipeline errors). -/
def process_update (u : Option Message) (env : PipelineEnv) : List ChatEvent :=
  match u with
  | none => []
  | some m => handle_file m env

/-- An HTTP response: status code plus the body's `status` field (or plain
body text for the non-JSON routes). -/
structure HttpResponse where
  status : Nat
  body : String
deriving DecidableEq

/-- The `/webhook` POST route (`app.py` lines 169-182): `Update.de_json`
parse + `process_update` run inside `try/except`; a parse-level failure
returns 500 `{"status":"error"}`, otherwise 200 `{"status":"ok"}`. -/
def webhook (parseResult : Except String (Option Message)) (env : PipelineEnv) :
    HttpResponse × List ChatEvent :=
  match parseResult with
  | Except.error _ => (⟨500, "error"⟩, [])
  | Except.ok u => (⟨200, "ok"⟩, process_update u env)

/-- The `WEBHOOK_URL` environment configuration (`None` when unset). -/
structure SetupConfig where
  webhookUrl : Option String
deriving DecidableEq

/-- Observable actions of the setup path.  `initClient` stands for a
platform-client initialization step; `app.py` never performs one. -/
inductive SetupEvent
  | initClient
  | logSetupError (text : String)
  | setWebhook (url : String)
  | logSetupInfo (text : String)
deriving DecidableEq

/-- `setup_webhook` (`app.py` lines 185-198): bails out with an error log
when `WEBHOOK_URL` is falsy (unset or empty), else awaits
`bot.set_webhook(f"{WEBHOOK_URL}/webhook")` — a network call that can
raise, modelled by the `res` input (`Except.error e` = the call raised an
exception with string form `e`) — and logs at info level only when it did
not raise.  The function has no `try/except`: the second component is the
exception propagated to the caller (`none` = returned normally; the
`setWebhook` event is recorded either way because the call was made). -/
def setup_webhook (cfg : SetupConfig) (res : Except String Unit) :
    List SetupEvent × Option String :=
  match cfg.webhookUrl with
  | none =>
      ([SetupEvent.logSetupError "WEBHOOK_URL is not set in environment variables."], none)
  | some u =>
    if u = "" then
      ([SetupEvent.logSetupError "WEBHOOK_URL is not set in environment variables."], none)
    else
      match res with
      | Except.ok _ =>
          ([SetupEvent.setWebhook (u ++ "/webhook"),
            SetupEvent.logSetupInfo ("Webhook set to " ++ u ++ "/webhook")], none)
      | Except.error e =>
          ([SetupEvent.setWebhook (u ++ "/webhook")], some e)

/-- The `/setup` route (`app.py` lines 202-210): runs
`asyncio.run(setup_webhook())` unconditionally — there is no `try/except`
in the route, so an exception raised by `set_webhook` propagates out of
`asyncio.run` and Flask answers with its default 500 error page (body
modelled by its status text) — and only when nothing was raised returns
the fixed text with Flask's default status 200. -/
def setup (cfg : SetupConfig) (res : Except String Unit) :
    HttpResponse × List SetupEvent :=
  match setup_webhook cfg res with
  | (evs, none) => (⟨200, "Webhook setup finished!"⟩, evs)
  | (evs, some _) => (⟨500, "Internal Server Error"⟩, evs)

/-- An inbound HTTP request to one of the three Flask routes.  A `/setup`
request carries the outcome of the `bot.set_webhook` network call it
would make. -/
inductive Request
  | getIndex
  | postWebhook (parseResult : Except String (Option Message)) (env : PipelineEnv)
  | getSetup (setWebhookResult : Except String Unit)

/-- Handling of a single request.  The process keeps no state across
requests: there is no setup flag, lock, or guard anywhere in `app.py`. -/
def handleRequest (cfg : SetupConfig) :
    Request → HttpResponse × List ChatEvent × List SetupEvent
  | Request.getIndex => (⟨200, "Hello, I am the DriveBot!"⟩, [], [])
  | Request.postWebhook p env =>
      let r := webhook p env
      (r.1, r.2, [])
  | Request.getSetup res =>
      let r := setup cfg res
      (r.1, [], r.2)

/-- Setup-side events produced over a whole process lifetime, i.e. over a
sequence of inbound requests. -/
def setupTrace (cfg : SetupConfig) (rs : List Request) : List SetupEvent :=
  (rs.map (fun r => (handleRequest cfg r).2.2)).flatten

/-- Number of webhook-registration calls in a setup-event trace. -/
def registrationCount (evs : List SetupEvent) : Nat :=
  (evs.filter (fun e => match e with | SetupEvent.setWebhook _ => true | _ => false)).length

/-- Number of `/setup` requests in a request sequence. -/
def setupRequestCount (rs : List Request) : Nat :=
  (rs.filter (fun r => match r with | Request.getSetup _ => true | _ => false)).length

/-- Boolean "is a prefix of" on character lists. -/
def isPrefixOfC : List Char → List Char → Bool
  | [], _ => true
  | _ :: _, [] => false
  | a :: as, b :: bs => if a = b then isPrefixOfC as bs else false

/-- Number of positions of `l` at which the pattern `pat` occurs. -/
def countOcc (pat : List Char) : List Char → Nat
  | [] => 0
  | c :: rest => (if isPrefixOfC pat (c :: rest) then 1 else 0) + countOcc pat rest

/-- Start of an HTML anchor tag. -/
def anchorPat : List Char := ['<', 'a']

/- Concrete fixtures used by witnesses and counterexamples. -/

/-- A document message with a declared name. -/
def docMsg : Message := ⟨some ⟨"doc-f", "doc-u", some "report.pdf"⟩, none, [], none⟩

/-- A document message whose declared name is absent (Python `None`). -/
def docMsgNoName : Message := ⟨some ⟨"doc-f", "doc-u", none⟩, none, [], none⟩

/-- A video message whose declared name is the empty string. -/
def videoMsgEmptyName : Message := ⟨none, some ⟨"vid-f", "vid-u", some ""⟩, [], none⟩

/-- A video message with no declared name. -/
def videoMsgNoName : Message := ⟨none, some ⟨"vid-f", "vid-u", none⟩, [], none⟩

/-- An audio message with no declared name. -/
def audioMsgNoName : Message := ⟨none, none, [], some ⟨"aud-f", "aud-u", none⟩⟩

/-- A photo message with two size variants. -/
def photoMsg2 : Message := ⟨none, none, [⟨"ph-f1", "ph-u1"⟩, ⟨"ph-f2", "ph-u2"⟩], none⟩

/-- A message with none of the four attachment kinds. -/
def unsupportedMsg : Message := ⟨none, none, [], none⟩

/-- All external calls succeed; the provider returns id and view link. -/
def okEnv : PipelineEnv :=
  ⟨Except.ok ByteArray.empty, Except.ok (),
   Except.ok ⟨some "drive-id", some "https://drive.example/view"⟩⟩

/-- The Telegram fetch raises the oversized-payload error string. -/
def fetchErrEnv : PipelineEnv :=
  ⟨Except.error "File is too big", Except.ok (),
   Except.ok ⟨some "drive-id", some "https://drive.example/view"⟩⟩

/-- The Drive provider call raises; fetch and service succeed. -/
def providerErrEnv : PipelineEnv :=
  ⟨Except.ok ByteArray.empty, Except.ok (), Except.error "HttpError 403"⟩

/-- A configured registration target. -/
def cfgSome : SetupConfig := ⟨some "https://example.onrender.com"⟩

/-- `WEBHOOK_URL` unset. -/
def cfgNone : SetupConfig := ⟨none⟩

/-! ## Helper lemmas -/

theorem data_append (s t : String) : (s ++ t).data = s.data ++ t.data := by
  cases s
  cases t
  rfl

theorem pyOr_ne_empty (n : Option String) (d : String) (hd : d ≠ "") :
    pyOr n d ≠ "" := by
  cases n with
  | none => simpa [pyOr] using hd
  | some s =>
    simp only [pyOr]
    split
    · exact hd
    · assumption

theorem append3_ne_empty (p x s : String) (hp : p.data ≠ []) : p ++ x ++ s ≠ "" := by
  intro h
  have h2 : (p ++ x ++ s).data = ([] : List Char) := by rw [h]
  rw [data_append, data_append] at h2
  exact hp (List.append_eq_nil.mp (List.append_eq_nil.mp h2).1).1

theorem errorText_data (s : String) :
    (errorText s).data = 'خ' :: 'ط' :: 'ا' :: ':' :: ' ' :: s.data := by
  cases s
  rfl

theorem uploadFailed_ne_errorText (s : String) : uploadFailedText ≠ errorText s := by
  intro h
  have h2 : uploadFailedText.data.head? = (errorText s).data.head? := by rw [h]
  rw [errorText_data, List.head?_cons] at h2
  exact absurd h2 (by decide)

theorem countOcc_cons (pat : List Char) (c : Char) (rest : List Char) :
    countOcc pat (c :: rest) =
      (if isPrefixOfC pat (c :: rest) then 1 else 0) + countOcc pat rest := rfl

theorem isPrefixOfC_anchor_of_ne (c : Char) (l : List Char) (h : ¬ c = '<') :
    isPrefixOfC anchorPat (c :: l) = false := by
  have h' : ¬ ('<' = c) := fun e => h e.symm
  simp [anchorPat, isPrefixOfC, h']

theorem countOcc_anchor_cons_of_ne (c : Char) (l : List Char) (h : ¬ c = '<') :
    countOcc anchorPat (c :: l) = countOcc anchorPat l := by
  rw [countOcc_cons]
  simp [isPrefixOfC_anchor_of_ne c l h]

theorem countOcc_anchor_append (l₁ l₂ : List Char) (h : '<' ∉ l₁) :
    countOcc anchorPat (l₁ ++ l₂) = countOcc anchorPat l₂ := by
  induction l₁ with
  | nil => rfl
  | cons c rest ih =>
    rw [List.mem_cons, not_or] at h
    rw [List.cons_append, countOcc_anchor_cons_of_ne c _ (fun e => h.1 e.symm)]
    exact ih h.2

theorem countOcc_anchor_head (l : List Char) :
    countOcc anchorPat ('<' :: 'a' :: l) = 1 + countOcc anchorPat ('a' :: l) := by
  rw [countOcc_cons]
  simp [anchorPat, isPrefixOfC]

theorem countOcc_anchor_successText (R N : String)
    (hR : '<' ∉ R.data) (hN : '<' ∉ N.data) :
    countOcc anchorPat (successText R N).data = 1 := by
  have key : (successText R N).data
      = ("✅ فایل با موفقیت آپلود شد!\n\n" : String).data
        ++ '<' :: 'a' :: ((" href='" : String).data
          ++ (R.data ++ (("'>" : String).data
            ++ (N.data ++ ("</a>" : String).data)))) := by
    simp only [successText, data_append, List.append_assoc, List.cons_append,
      List.nil_append]
  rw [key, countOcc_anchor_append _ _ (by decide), countOcc_anchor_head,
    countOcc_anchor_cons_of_ne 'a' _ (by decide),
    countOcc_anchor_append _ _ (by decide),
    countOcc_anchor_append _ _ hR,
    countOcc_anchor_append _ _ (by decide),
    countOcc_anchor_append _ _ hN]
  decide

/-! ## Claim theorems -/

/-- C4: the attachment classification of `handle_file` fires exactly one
branch, in the priority order document > video > photo > audio: a document
message is classified as document with its declared name even when other
attachment kinds are present; a message with none of the four kinds gets
exactly the fixed unsupported-format reply with no status message, no
fetch call and no upload call. -/
theorem C4_attachment_classification (m : Message) (env : PipelineEnv) :
    (∀ d, m.document = some d →
      dispatch m = some ⟨FileKind.document, d.file_id, d.file_unique_id, d.file_name⟩)
    ∧ (m.document = none → ∀ v, m.video = some v →
      (dispatch m).map FileRef.kind = some FileKind.video)
    ∧ (m.document = none → m.video = none → m.photo ≠ [] →
      (dispatch m).map FileRef.kind = some FileKind.photo)
    ∧ (m.document = none → m.video = none → m.photo = [] → ∀ a, m.audio = some a →
      (dispatch m).map FileRef.kind = some FileKind.audio)
    ∧ (m.document = none → m.video = none → m.photo = [] → m.audio = none →
      handle_file m env = [ChatEvent.reply unsupportedText]
      ∧ (∀ t, ChatEvent.createStatus t ∉ handle_file m env)
      ∧ (∀ fid, ChatEvent.fetchCall fid ∉ handle_file m env)
      ∧ (∀ n, ChatEvent.uploadCall n ∉ handle_file m env)) := by
  refine ⟨?_, ?_, ?_, ?_, ?_⟩
  · intro d hd
    simp [dispatch, hd]
  · intro hd v hv
    simp [dispatch, hd, hv]
  · intro hd hv hp
    obtain ⟨p, hpl⟩ := Option.isSome_iff_exists.mp
      ((List.getLast?_isSome (l := m.photo)).mpr hp)
    simp [dispatch, hd, hv, hpl]
  · intro hd hv hp a ha
    simp [dispatch, hd, hv, hp, ha]
  · intro hd hv hp ha
    have key : handle_file m env = [ChatEvent.reply unsupportedText] := by
      simp [handle_file, dispatch, hd, hv, hp, ha]
    refine ⟨key, ?_, ?_, ?_⟩ <;> intro x <;> rw [key] <;> simp

/-- Witness for C4 at concrete messages: a document message (which also
has no other kinds here) is classified as document with its declared name,
and a message with no attachment yields exactly the unsupported reply. -/
theorem C4_witness :
    dispatch docMsg
      = some ⟨FileKind.document, "doc-f", "doc-u", some "report.pdf"⟩
    ∧ handle_file unsupportedMsg okEnv = [ChatEvent.reply unsupportedText] :=
  ⟨(C4_attachment_classification docMsg okEnv).1 _ rfl,
   ((C4_attachment_classification unsupportedMsg okEnv).2.2.2.2 rfl rfl rfl rfl).1⟩

/-- C5: for a photo message with N ≥ 1 size variants, dispatch selects
exactly the variant at index N-1 of the platform-provided list and names
it `photo_{uniqueId}.jpg`. -/
theorem C5_photo_selects_last (m : Message) (p : PhotoSize)
    (hd : m.document = none) (hv : m.video = none)
    (hp : m.photo[m.photo.length - 1]? = some p) :
    dispatch m = some ⟨FileKind.photo, p.file_id, p.file_unique_id,
      some ("photo_" ++ p.file_unique_id ++ ".jpg")⟩ := by
  have hlast : m.photo.getLast? = some p := by
    rw [List.getLast?_eq_getElem?]
    exact hp
  simp [dispatch, hd, hv, hlast]

/-- Witness for C5: with two size variants the second (index 1 = N-1) is
selected, not the first. -/
theorem C5_witness :
    dispatch photoMsg2
      = some ⟨FileKind.photo, "ph-f2", "ph-u2", some "photo_ph-u2.jpg"⟩ :=
  C5_photo_selects_last photoMsg2 ⟨"ph-f2", "ph-u2"⟩ rfl rfl rfl

/-- Counterexample to C6 as stated: a video message whose declared name is
present but equal to the empty string does not keep it unchanged — Python's
`or` treats the empty string as falsy, so the synthesized
`video_{uniqueId}.mp4` name is used instead. -/
theorem C6_counterexample :
    videoMsgEmptyName.video = some ⟨"vid-f", "vid-u", some ""⟩
    ∧ (dispatch videoMsgEmptyName).map FileRef.name = some (some "video_vid-u.mp4")
    ∧ (dispatch videoMsgEmptyName).map FileRef.name ≠ some (some "") := by
  decide

/-- C6 (amended): for video/audio messages an absent or empty declared
name yields the synthesized `video_{uniqueId}.mp4` / `audio_{uniqueId}.mp3`
name; a declared non-empty name is used unchanged; the document branch
never synthesizes and copies the declared name verbatim. -/
theorem C6_name_synthesis (m : Message) :
    (∀ v, m.document = none → m.video = some v →
        (v.file_name = none ∨ v.file_name = some "") →
      (dispatch m).map FileRef.name
        = some (some ("video_" ++ v.file_unique_id ++ ".mp4")))
    ∧ (∀ a, m.document = none → m.video = none → m.photo = [] → m.audio = some a →
        (a.file_name = none ∨ a.file_name = some "") →
      (dispatch m).map FileRef.name
        = some (some ("audio_" ++ a.file_unique_id ++ ".mp3")))
    ∧ (∀ v s, m.document = none → m.video = some v → v.file_name = some s → s ≠ "" →
      (dispatch m).map FileRef.name = some (some s))
    ∧ (∀ a s, m.document = none → m.video = none → m.photo = [] → m.audio = some a →
        a.file_name = some s → s ≠ "" →
      (dispatch m).map FileRef.name = some (some s))
    ∧ (∀ d, m.document = some d → (dispatch m).map FileRef.name = some d.file_name) := by
  refine ⟨?_, ?_, ?_, ?_, ?_⟩
  · intro v hd hv hn
    rcases hn with hn | hn <;> simp [dispatch, hd, hv, hn, pyOr]
  · intro a hd hv hp ha hn
    rcases hn with hn | hn <;> simp [dispatch, hd, hv, hp, ha, hn, pyOr]
  · intro v s hd hv hn hs
    simp [dispatch, hd, hv, hn, pyOr, hs]
  · intro a s hd hv hp ha hn hs
    simp [dispatch, hd, hv, hp, ha, hn, pyOr, hs]
  · intro d hd
    simp [dispatch, hd]

/-- Witness for C6: a video and an audio message without declared names
get the synthesized names; a document message keeps its declared name. -/
theorem C6_witness :
    (dispatch videoMsgNoName).map FileRef.name = some (some "video_vid-u.mp4")
    ∧ (dispatch audioMsgNoName).map FileRef.name = some (some "audio_aud-u.mp3")
    ∧ (dispatch docMsg).map FileRef.name = some (some "report.pdf") :=
  ⟨(C6_name_synthesis videoMsgNoName).1 _ rfl rfl (Or.inl rfl),
   (C6_name_synthesis audioMsgNoName).2.1 _ rfl rfl rfl rfl (Or.inl rfl),
   (C6_name_synthesis docMsg).2.2.2.2 _ rfl⟩

/-- Counterexample to C7 as stated: a document message whose declared name
is absent (Python `None`) is dispatched with an absent suggested name — no
name is synthesized for documents. -/
theorem C7_counterexample :
    (dispatch docMsgNoName).map FileRef.name = some none := by
  decide

/-- C7 (amended): for the video, photo and audio kinds the suggested name
is never empty or absent (synthesized from the unique id plus a per-kind
extension default when the platform omits it); for the document kind the
declared name is copied verbatim and may be absent or empty. -/
theorem C7_nonempty_synthesized_names (m : Message) (ref : FileRef)
    (h : dispatch m = some ref) :
    (ref.kind ≠ FileKind.document → ∃ s, ref.name = some s ∧ s ≠ "")
    ∧ (∀ d, m.document = some d → ref.name = d.file_name) := by
  unfold dispatch at h
  cases hd : m.document with
  | some d =>
    rw [hd] at h
    simp only [Option.some.injEq] at h
    subst h
    refine ⟨fun hk => absurd rfl hk, fun d2 hd2 => ?_⟩
    cases hd2
    rfl
  | none =>
    rw [hd] at h
    cases hv : m.video with
    | some v =>
      rw [hv] at h
      simp only [Option.some.injEq] at h
      subst h
      exact ⟨fun _ => ⟨_, rfl,
        pyOr_ne_empty _ _ (append3_ne_empty "video_" _ ".mp4" (by decide))⟩,
        fun _ h2 => nomatch h2⟩
    | none =>
      rw [hv] at h
      cases hp : m.photo.getLast? with
      | some p =>
        rw [hp] at h
        simp only [Option.some.injEq] at h
        subst h
        exact ⟨fun _ => ⟨_, rfl,
          append3_ne_empty "photo_" _ ".jpg" (by decide)⟩,
          fun _ h2 => nomatch h2⟩
      | none =>
        rw [hp] at h
        cases ha : m.audio with
        | some a =>
          rw [ha] at h
          simp only [Option.some.injEq] at h
          subst h
          exact ⟨fun _ => ⟨_, rfl,
            pyOr_ne_empty _ _ (append3_ne_empty "audio_" _ ".mp3" (by decide))⟩,
            fun _ h2 => nomatch h2⟩
        | none =>
          rw [ha] at h
          cases h

/-- Witness for C7 at a video message without a declared name: the
dispatched reference carries a present, non-empty suggested name. -/
theorem C7_witness :
    ∃ s, (FileRef.mk FileKind.video "vid-f" "vid-u"
      (some ("video_" ++ "vid-u" ++ ".mp4"))).name = some s ∧ s ≠ "" :=
  (C7_nonempty_synthesized_names videoMsgNoName _ rfl).1 (by decide)

/-- Counterexample to C2 as stated: when the fetch raises the Telegram
oversized-payload error ("File is too big"), the final status edit is the
generic `errorText` message built by the `except` clause — i.e. exactly the
unclassified-error text, not a distinct fixed "file too large" message —
and it nowhere states a 20 MB ceiling (no occurrence of "20"). -/
theorem C2_counterexample :
    (handle_file docMsg fetchErrEnv).getLast?
      = some (ChatEvent.editStatus (errorText "File is too big") false false)
    ∧ countOcc ("20" : String).data (errorText "File is too big").data = 0 := by
  constructor
  · rfl
  · decide

/-- C2 (amended): when the fetch step raises any error `e` — including an
oversized-payload error — the pipeline ends with the single generic edit
`errorText e` (the unclassified-error message containing the stringified
error; no dedicated file-too-large text exists) and no upload call is
made. -/
theorem C2_fetch_error_generic_message (m : Message) (env : PipelineEnv)
    (ref : FileRef) (e : String)
    (h : dispatch m = some ref) (hf : env.fetchResult = Except.error e) :
    handle_file m env =
      [ChatEvent.createStatus fetchingText, ChatEvent.fetchCall ref.file_id,
       ChatEvent.editStatus (errorText e) false false]
    ∧ (∀ n, ChatEvent.uploadCall n ∉ handle_file m env) := by
  have key : handle_file m env =
      [ChatEvent.createStatus fetchingText, ChatEvent.fetchCall ref.file_id,
       ChatEvent.editStatus (errorText e) false false] := by
    simp [handle_file, h, hf]
  refine ⟨key, fun n => ?_⟩
  rw [key]
  simp

/-- Witness for C2 (amended) at the concrete oversized-payload error. -/
theorem C2_witness :
    handle_file docMsg fetchErrEnv =
      [ChatEvent.createStatus fetchingText, ChatEvent.fetchCall "doc-f",
       ChatEvent.editStatus (errorText "File is too big") false false] :=
  (C2_fetch_error_generic_message docMsg fetchErrEnv _ "File is too big" rfl rfl).1

/-- C8: `upload_to_drive` converts any provider exception into the `none`
failure sentinel plus an error-level log instead of propagating; the
pipeline then ends with the generic plain-text "upload failed" edit, a
text distinct from the raised-exception path's `errorText` message for
every stringified error. -/
theorem C8_upload_never_propagates (m : Message) (env : PipelineEnv)
    (ref : FileRef) (b : ByteArray) (e : String)
    (h : dispatch m = some ref) (hf : env.fetchResult = Except.ok b)
    (hs : env.driveServiceResult = Except.ok ())
    (hp : env.providerResult = Except.error e) :
    upload_to_drive (Except.error e)
      = (none, ⟨LogLevel.error, "Error uploading file: " ++ e⟩)
    ∧ (handle_file m env).getLast?
      = some (ChatEvent.editStatus uploadFailedText false false)
    ∧ (∀ s, uploadFailedText ≠ errorText s) := by
  have key : handle_file m env =
      [ChatEvent.createStatus fetchingText, ChatEvent.fetchCall ref.file_id,
       ChatEvent.editStatus uploadingText false false, ChatEvent.driveServiceCall,
       ChatEvent.uploadCall ref.name,
       ChatEvent.editStatus uploadFailedText false false] := by
    simp [handle_file, h, hf, hs, hp, upload_to_drive]
  exact ⟨rfl, by rw [key]; rfl, uploadFailed_ne_errorText⟩

/-- Witness for C8 at a concrete provider exception. -/
theorem C8_witness :
    upload_to_drive (Except.error "HttpError 403")
      = (none, ⟨LogLevel.error, "Error uploading file: HttpError 403"⟩)
    ∧ (handle_file docMsg providerErrEnv).getLast?
      = some (ChatEvent.editStatus uploadFailedText false false)
    ∧ uploadFailedText ≠ errorText "HttpError 403" := by
  obtain ⟨h1, h2, h3⟩ := C8_upload_never_propagates docMsg providerErrEnv _
    ByteArray.empty "HttpError 403" rfl rfl rfl rfl
  exact ⟨h1, h2, h3 _⟩

/-- C9: when the upload executor returns a non-empty shareable reference
`R` for suggested name `N`, the final status edit is the HTML-mode message
with link preview disabled whose text embeds exactly one anchor, with href
`R` and visible text `N` (one-anchor count proved for link/name strings
free of an embedded lower-than sign). -/
theorem C9_success_link_message (m : Message) (env : PipelineEnv)
    (ref : FileRef) (b : ByteArray) (f : DriveFile) (R : String)
    (h : dispatch m = some ref) (hf : env.fetchResult = Except.ok b)
    (hs : env.driveServiceResult = Except.ok ())
    (hp : env.providerResult = Except.ok f)
    (hl : f.webViewLink = some R) (hR : R ≠ "") :
    (handle_file m env).getLast?
      = some (ChatEvent.editStatus (successText R (pyStr ref.name)) true true)
    ∧ successText R (pyStr ref.name)
      = "✅ فایل با موفقیت آپلود شد!\n\n" ++ "<a href='" ++ R ++ "'>"
          ++ pyStr ref.name ++ "</a>"
    ∧ ('<' ∉ R.data → '<' ∉ (pyStr ref.name).data →
        countOcc anchorPat (successText R (pyStr ref.name)).data = 1) := by
  have key : handle_file m env =
      [ChatEvent.createStatus fetchingText, ChatEvent.fetchCall ref.file_id,
       ChatEvent.editStatus uploadingText false false, ChatEvent.driveServiceCall,
       ChatEvent.uploadCall ref.name,
       ChatEvent.editStatus (successText R (pyStr ref.name)) true true] := by
    simp [handle_file, h, hf, hs, hp, upload_to_drive, hl, hR]
  refine ⟨by rw [key]; rfl, rfl, countOcc_anchor_successText R (pyStr ref.name)⟩

/-- Witness for C9: concrete successful upload of a document; the final
edit is the HTML link message and its anchor count is one. -/
theorem C9_witness :
    (handle_file docMsg okEnv).getLast?
      = some (ChatEvent.editStatus
          (successText "https://drive.example/view" "report.pdf") true true)
    ∧ countOcc anchorPat
        (successText "https://drive.example/view" "report.pdf").data = 1 := by
  obtain ⟨h1, _, h3⟩ := C9_success_link_message docMsg okEnv _ ByteArray.empty _
    "https://drive.example/view" rfl rfl rfl rfl rfl (by decide)
  exact ⟨h1, h3 (by decide) (by decide)⟩

/-- C3: the webhook endpoint answers 200 `{"status":"ok"}` for every
payload that parses, regardless of the pipeline outcome; a 500
`{"status":"error"}` arises only from a parse-level failure; and every
error raised inside the pipeline (fetch or drive-service acquisition) is
caught at the pipeline boundary and converted into the `errorText` chat
edit. -/
theorem C3_http_boundary (p : Except String (Option Message)) (env : PipelineEnv) :
    (∀ u, p = Except.ok u → (webhook p env).1 = ⟨200, "ok"⟩)
    ∧ ((webhook p env).1.status = 500 → ∃ e, p = Except.error e)
    ∧ (∀ m ref e, dispatch m = some ref →
        (env.fetchResult = Except.error e
          ∨ ((∃ b, env.fetchResult = Except.ok b)
              ∧ env.driveServiceResult = Except.error e)) →
        (handle_file m env).getLast?
          = some (ChatEvent.editStatus (errorText e) false false)) := by
  refine ⟨?_, ?_, ?_⟩
  · intro u hu
    rw [hu]
    rfl
  · cases p with
    | ok u =>
      intro hcontra
      exact absurd hcontra (by simp [webhook])
    | error e => exact fun _ => ⟨e, rfl⟩
  · intro m ref e h herr
    rcases herr with hf | ⟨⟨b, hb⟩, hsvc⟩
    · have key : handle_file m env =
          [ChatEvent.createStatus fetchingText, ChatEvent.fetchCall ref.file_id,
           ChatEvent.editStatus (errorText e) false false] := by
        simp [handle_file, h, hf]
      rw [key]
      rfl
    · have key : handle_file m env =
          [ChatEvent.createStatus fetchingText, ChatEvent.fetchCall ref.file_id,
           ChatEvent.editStatus uploadingText false false, ChatEvent.driveServiceCall,
           ChatEvent.editStatus (errorText e) false false] := by
        simp [handle_file, h, hb, hsvc]
      rw [key]
      rfl

/-- Witness for C3: a parsed update with a failing pipeline still yields
200/ok, and a concrete pipeline error ends as a chat edit. -/
theorem C3_witness :
    (webhook (Except.ok (some docMsg)) providerErrEnv).1 = ⟨200, "ok"⟩
    ∧ (handle_file docMsg fetchErrEnv).getLast?
      = some (ChatEvent.editStatus (errorText "File is too big") false false) :=
  ⟨(C3_http_boundary (Except.ok (some docMsg)) providerErrEnv).1 _ rfl,
   (C3_http_boundary (Except.ok (some docMsg)) fetchErrEnv).2.2 docMsg _
     "File is too big" rfl (Or.inl rfl)⟩

/-- Counterexample to C1 as stated: the webhook registration is re-run on
every `GET /setup` request — two such requests in one process lifetime
produce two registration calls, violating "at most once per process
lifetime" — and the first inbound HTTP request to another route (here
`GET /`) triggers no part of the setup sequence. -/
theorem C1_counterexample :
    registrationCount (setupTrace cfgSome
        [Request.getSetup (Except.ok ()), Request.getSetup (Except.ok ())]) = 2
    ∧ ¬ registrationCount (setupTrace cfgSome
        [Request.getSetup (Except.ok ()), Request.getSetup (Except.ok ())]) ≤ 1
    ∧ setupTrace cfgSome [Request.getIndex] = [] := by
  decide

/-- C1 (amended): with a configured non-empty registration target, the
webhook-registration call runs exactly once per `GET /setup` request
(whether or not that call raises) — hence as many times as that route is
called, with no once-per-process guard — requests to other routes never
trigger it, and no separate platform-client initialization step exists
anywhere in request handling. -/
theorem C1_setup_runs_per_request (cfg : SetupConfig) (u : String)
    (rs : List Request) (hu : cfg.webhookUrl = some u) (hne : u ≠ "") :
    registrationCount (setupTrace cfg rs) = setupRequestCount rs
    ∧ SetupEvent.initClient ∉ setupTrace cfg rs := by
  induction rs with
  | nil => exact ⟨rfl, by simp [setupTrace]⟩
  | cons r rest ih =>
    obtain ⟨ih1, ih2⟩ := ih
    have hstep : setupTrace cfg (r :: rest) =
        (handleRequest cfg r).2.2 ++ setupTrace cfg rest := by
      simp [setupTrace]
    constructor
    · rw [hstep, registrationCount, List.filter_append, List.length_append]
      cases r with
      | getIndex =>
        simpa [handleRequest, registrationCount, setupRequestCount] using ih1
      | postWebhook p env =>
        simpa [handleRequest, registrationCount, setupRequestCount] using ih1
      | getSetup res =>
        rw [registrationCount] at ih1
        cases res with
        | ok v =>
          simp [handleRequest, setup, setup_webhook, hu, hne, setupRequestCount,
            List.filter_cons, ih1]
          omega
        | error e =>
          simp [handleRequest, setup, setup_webhook, hu, hne, setupRequestCount,
            List.filter_cons, ih1]
          omega
    · rw [hstep]
      intro hmem
      rcases List.mem_append.mp hmem with hm | hm
      · cases r with
        | getIndex => simp [handleRequest] at hm
        | postWebhook p env => simp [handleRequest] at hm
        | getSetup res =>
          cases res with
          | ok v => simp [handleRequest, setup, setup_webhook, hu, hne] at hm
          | error e => simp [handleRequest, setup, setup_webhook, hu, hne] at hm
      · exact ih2 hm

/-- Witness for C1 (amended): two `/setup` requests — one whose
registration call succeeds, one whose call raises — interleaved with an
index request give a registration count of two and no initialization
event. -/
theorem C1_witness :
    registrationCount (setupTrace cfgSome
        [Request.getSetup (Except.ok ()), Request.getIndex,
         Request.getSetup (Except.error "Timed out")])
      = setupRequestCount
          [Request.getSetup (Except.ok ()), Request.getIndex,
           Request.getSetup (Except.error "Timed out")]
    ∧ SetupEvent.initClient ∉ setupTrace cfgSome
        [Request.getSetup (Except.ok ()), Request.getIndex,
         Request.getSetup (Except.error "Timed out")] :=
  C1_setup_runs_per_request cfgSome "https://example.onrender.com" _ rfl (by decide)

/-- Counterexample to C10 as stated: the `/setup` route has no
`try/except`, so when the registration call `bot.set_webhook` raises, the
exception propagates out of `asyncio.run` and Flask answers 500 — not the
fixed success text with HTTP 200. -/
theorem C10_counterexample :
    (setup cfgSome (Except.error "Timed out")).1
      ≠ (⟨200, "Webhook setup finished!"⟩ : HttpResponse)
    ∧ (setup cfgSome (Except.error "Timed out")).1.status = 500 := by
  decide

/-- C10 (amended): every `/setup` request whose registration call does not
raise is answered with the fixed text "Webhook setup finished!" and
status 200; when the registration target is unconfigured the sequence
only logs an error, makes no registration attempt, and the response is
indistinguishable from that of any non-raising configured run; when the
registration call raises, the exception propagates out of the route and
the response is a 500 error instead of the fixed text. -/
theorem C10_setup_route_response (cfg : SetupConfig) (res : Except String Unit) :
    ((setup_webhook cfg res).2 = none →
      (setup cfg res).1 = ⟨200, "Webhook setup finished!"⟩)
    ∧ (cfg.webhookUrl = none →
        (setup cfg res).1 = ⟨200, "Webhook setup finished!"⟩
        ∧ (setup cfg res).2 = [SetupEvent.logSetupError
            "WEBHOOK_URL is not set in environment variables."]
        ∧ registrationCount (setup cfg res).2 = 0
        ∧ (∀ (cfg2 : SetupConfig) (res2 : Except String Unit),
            (setup_webhook cfg2 res2).2 = none →
            (setup cfg res).1 = (setup cfg2 res2).1))
    ∧ (∀ e, (setup_webhook cfg res).2 = some e → (setup cfg res).1.status = 500) := by
  refine ⟨?_, ?_, ?_⟩
  · intro h
    unfold setup
    rw [show setup_webhook cfg res = ((setup_webhook cfg res).1, none) from by
      rw [← h]]
  · intro h
    have hsw : setup_webhook cfg res =
        ([SetupEvent.logSetupError "WEBHOOK_URL is not set in environment variables."],
         none) := by
      simp [setup_webhook, h]
    refine ⟨?_, ?_, ?_, ?_⟩
    · simp [setup, hsw]
    · simp [setup, hsw]
    · simp [setup, hsw, registrationCount]
    · intro cfg2 res2 h2
      have : (setup cfg2 res2).1 = ⟨200, "Webhook setup finished!"⟩ := by
        unfold setup
        rw [show setup_webhook cfg2 res2 = ((setup_webhook cfg2 res2).1, none) from by
          rw [← h2]]
      rw [this]
      simp [setup, hsw]
  · intro e h
    unfold setup
    rw [show setup_webhook cfg res = ((setup_webhook cfg res).1, some e) from by
      rw [← h]]

/-- Witness for C10 (amended): with `WEBHOOK_URL` unset the route answers
the fixed 200 text, logs the error, makes no registration attempt, and is
indistinguishable from a successful configured run; with a raising
registration call the same route answers 500. -/
theorem C10_witness :
    (setup cfgNone (Except.ok ())).1 = ⟨200, "Webhook setup finished!"⟩
    ∧ (setup cfgNone (Except.ok ())).2 = [SetupEvent.logSetupError
        "WEBHOOK_URL is not set in environment variables."]
    ∧ registrationCount (setup cfgNone (Except.ok ())).2 = 0
    ∧ (setup cfgNone (Except.ok ())).1 = (setup cfgSome (Except.ok ())).1
    ∧ (setup cfgSome (Except.error "Timed out")).1.status = 500 := by
  obtain ⟨-, h2, -⟩ := C10_setup_route_response cfgNone (Except.ok ())
  obtain ⟨a, b, c, d⟩ := h2 rfl
  refine ⟨a, b, c, d cfgSome (Except.ok ()) rfl, ?_⟩
  exact (C10_setup_route_response cfgSome (Except.error "Timed out")).2.2
    "Timed out" rfl

end PolBot
